import Mathlib

/-!
Verification of the botDetectorBackend repository: a shallow embedding of
the client-side behavioral-data collection script (`botDetect.js`) and of
the backend controllers (`security.js`, model schema) in Lean 4, together
with theorems settling the specification claims.

Conventions of the embedding:
* JavaScript numbers holding epoch-millisecond timestamps are `Nat`;
  coordinates and dimensions are `Int`.
* `Array.prototype.slice(-n)` is `jsSliceLast n`.
* The browser/event-loop environment (event objects, `Date.now()`,
  `window.location`) enters each handler as explicit arguments.
* The network transport (`sendBeacon` / `fetch`) is fire-and-forget; the
  built payload is returned as an `Option` (`none` = the early-return
  skip), and the delivery outcome is an argument that the state update
  does not depend on, mirroring the source.
-/

namespace BotDetect

/-- CONFIG.MAX_EVENTS from `botDetect.js`. -/
def MAX_EVENTS : Nat := 1000

/-- CONFIG.BATCH_INTERVAL (ms) from `botDetect.js`. -/
def BATCH_INTERVAL : Nat := 10000

/-- JavaScript `arr.slice(-n)` for `n > 0`: the last `n` elements (all of
them when the array is shorter). -/
def jsSliceLast (n : Nat) (l : List α) : List α :=
  l.drop (l.length - n)

/-- A mouse-movement sample as pushed by the `mousemove` listener. -/
structure MouseEvent where
  x : Int
  y : Int
  t : Nat
  pageX : Int
  pageY : Int
  movementX : Int
  movementY : Int
  deriving DecidableEq, Repr

/-- A click sample as pushed by the `click` listener. -/
structure ClickEvent where
  x : Int
  y : Int
  btn : Nat
  tgt : String
  t : Nat
  id : String
  className : String
  text : String
  deriving DecidableEq, Repr

/-- A scroll sample as pushed by the debounced `scroll` listener. -/
structure ScrollEvent where
  x : Int
  y : Int
  t : Nat
  vw : Int
  vh : Int
  docH : Int
  docW : Int
  deriving DecidableEq, Repr

/-- A keyboard sample as pushed by the `keydown` listener.  The source
pushes `t`, `keyCode`, `location` and the four modifier flags. -/
structure KeyEvent where
  t : Nat
  keyCode : Nat
  location : Nat
  ctrl : Bool
  shift : Bool
  alt : Bool
  meta : Bool
  deriving DecidableEq, Repr

/-- A page-view entry.  The initial view carries `loadTime`; the SPA /
exit / tab-return views carry the `type` tag (field `navType` here). -/
structure PageView where
  url : String
  title : String
  ref : String
  t : Nat
  loadTime : Option Int
  navType : Option String
  deriving DecidableEq, Repr

/-- `navigator.connection` snapshot. -/
structure ConnectionInfo where
  effectiveType : String
  downlink : Int
  rtt : Int
  deriving DecidableEq, Repr

/-- The client fingerprint collected by `getFingerprint()`.  `none` in
`deviceMemory` / `hardwareConcurrency` models the string-unknown fallback. -/
structure ClientFingerprint where
  ua : String
  lang : String
  plat : String
  scrw : Int
  scrh : Int
  color : Int
  tz : String
  maxTouch : Nat
  cookies : Bool
  java : Bool
  pdf : Bool
  doNotTrack : String
  connection : Option ConnectionInfo
  deviceMemory : Option Int
  hardwareConcurrency : Option Int
  deriving DecidableEq, Repr

/-- The mutable client state: the `behaviorData` object of `botDetect.js`
together with the `lastMouseTime` throttle variable. -/
structure BehaviorData where
  session_id : String
  session_start : Nat
  mouse_events : List MouseEvent
  click_events : List ClickEvent
  scroll_events : List ScrollEvent
  key_events : List KeyEvent
  fingerprint : ClientFingerprint
  page_views : List PageView
  lastMouseTime : Nat
  deriving DecidableEq, Repr

/-- The fields of a DOM `mousemove` event that the listener reads. -/
structure MouseInput where
  clientX : Int
  clientY : Int
  pageX : Int
  pageY : Int
  movementX : Int
  movementY : Int
  deriving DecidableEq, Repr

/-- The fields of a DOM `click` event that the listener reads. -/
structure ClickInput where
  clientX : Int
  clientY : Int
  button : Nat
  targetTag : String
  targetId : String
  targetClassName : String
  targetText : String
  deriving DecidableEq, Repr

/-- The window/document readings taken by the debounced scroll callback. -/
structure ScrollInput where
  scrollX : Int
  scrollY : Int
  innerWidth : Int
  innerHeight : Int
  scrollHeight : Int
  scrollWidth : Int
  deriving DecidableEq, Repr

/-- The fields of a DOM `keydown` event that the listener reads. -/
structure KeyInput where
  keyCode : Nat
  location : Nat
  ctrlKey : Bool
  shiftKey : Bool
  altKey : Bool
  metaKey : Bool
  deriving DecidableEq, Repr

/-- The push-then-cap pattern every listener uses: push `x` to the tail
and, if the length now exceeds `MAX_EVENTS`, cut from the head down to
the per-category retention `floor` (`arr.push(x); if (arr.length >
MAX_EVENTS) arr = arr.slice(-floor)`). -/
def pushCap (floor : Nat) (l : List α) (x : α) : List α :=
  let q := l ++ [x]
  if MAX_EVENTS < q.length then jsSliceLast floor q else q

/-- The event object the `mousemove` listener pushes. -/
def mouseEventOf (e : MouseInput) (now : Nat) : MouseEvent :=
  { x := e.clientX, y := e.clientY, t := now, pageX := e.pageX,
    pageY := e.pageY, movementX := e.movementX, movementY := e.movementY }

/-- The event object the `click` listener pushes.
`e.target.textContent.substring(0, 50)` is `String.take 50`. -/
def clickEventOf (e : ClickInput) (now : Nat) : ClickEvent :=
  { x := e.clientX, y := e.clientY, btn := e.button, tgt := e.targetTag,
    t := now, id := e.targetId, className := e.targetClassName,
    text := e.targetText.take 50 }

/-- The event object the debounced scroll callback pushes. -/
def scrollEventOf (e : ScrollInput) (now : Nat) : ScrollEvent :=
  { x := e.scrollX, y := e.scrollY, t := now, vw := e.innerWidth,
    vh := e.innerHeight, docH := e.scrollHeight, docW := e.scrollWidth }

/-- The event object the `keydown` listener pushes: timestamp,
`keyCode`, `location` and the modifier flags. -/
def keyEventOf (e : KeyInput) (now : Nat) : KeyEvent :=
  { t := now, keyCode := e.keyCode, location := e.location,
    ctrl := e.ctrlKey, shift := e.shiftKey, alt := e.altKey,
    meta := e.metaKey }

/-- The `mousemove` listener: throttled to one sample per >50ms, then
push-and-cap with floor 500.  `now` is `Date.now()` at dispatch.  The
guard `now - lastMouseTime > 50` (JS real subtraction) is
`st.lastMouseTime + 50 < now` on `Nat`. -/
def handleMouseMove (st : BehaviorData) (e : MouseInput) (now : Nat) :
    BehaviorData :=
  if st.lastMouseTime + 50 < now then
    { st with
      mouse_events := pushCap 500 st.mouse_events (mouseEventOf e now),
      lastMouseTime := now }
  else
    st

/-- The `click` listener: unconditional push-and-cap with floor 200. -/
def handleClick (st : BehaviorData) (e : ClickInput) (now : Nat) :
    BehaviorData :=
  { st with click_events := pushCap 200 st.click_events (clickEventOf e now) }

/-- The body of the debounced scroll callback (run when the 100ms quiet
window elapses): push-and-cap with floor 100. -/
def handleScroll (st : BehaviorData) (e : ScrollInput) (now : Nat) :
    BehaviorData :=
  { st with
    scroll_events := pushCap 100 st.scroll_events (scrollEventOf e now) }

/-- The `keydown` listener: push-and-cap with floor 300. -/
def handleKeyDown (st : BehaviorData) (e : KeyInput) (now : Nat) :
    BehaviorData :=
  { st with key_events := pushCap 300 st.key_events (keyEventOf e now) }

/-- Every page-view producer in the source (`initial` load, `popstate`,
`triggerPageView`, `page_exit` on unload, `tab_return` on visibility)
pushes onto `page_views` with no length check. -/
def pushPageView (st : BehaviorData) (pv : PageView) : BehaviorData :=
  { st with page_views := st.page_views ++ [pv] }

/-- `triggerPageView(type)` from the source: builds the entry from the
current location/title/referrer and tags it with `type`. -/
def triggerPageView (st : BehaviorData) (url title ref : String)
    (now : Nat) (ty : String) : BehaviorData :=
  pushPageView st
    { url := url, title := title, ref := ref, t := now, loadTime := none,
      navType := some ty }

/-- The wire payload built by `sendData` (the `dataToSend` object). -/
structure Payload where
  session_id : String
  session_start : Nat
  mouse_events : List MouseEvent
  click_events : List ClickEvent
  scroll_events : List ScrollEvent
  key_events : List KeyEvent
  fingerprint : ClientFingerprint
  page_views : List PageView
  current_url : String
  collected_at : Nat
  deriving DecidableEq, Repr

/-- `sendData()` from `botDetect.js`.  Skips (returning `none`) when the
mouse, click, scroll and key queues are all empty; otherwise builds the
payload from shallow copies of all five arrays, attempts delivery
(`beaconOk` is the `sendBeacon` return value; on `false` the `fetch`
fallback fires — neither outcome is inspected), and truncates the four
event queues to their retention floors. -/
def sendData (st : BehaviorData) (currentUrl : String) (now : Nat)
    (beaconOk : Bool) : Option Payload × BehaviorData :=
  if st.mouse_events.length == 0 && st.click_events.length == 0 &&
      st.scroll_events.length == 0 && st.key_events.length == 0 then
    (none, st)
  else
    let dataToSend : Payload :=
      { session_id := st.session_id, session_start := st.session_start,
        mouse_events := st.mouse_events, click_events := st.click_events,
        scroll_events := st.scroll_events, key_events := st.key_events,
        fingerprint := st.fingerprint, page_views := st.page_views,
        current_url := currentUrl, collected_at := now }
    let _ := beaconOk
    (some dataToSend,
      { st with
        mouse_events := jsSliceLast 50 st.mouse_events,
        click_events := jsSliceLast 20 st.click_events,
        scroll_events := jsSliceLast 10 st.scroll_events,
        key_events := jsSliceLast 30 st.key_events })

end BotDetect

namespace Backend

/-- Mouse event as persisted by `mouseEventSchema` (x, y, t only). -/
structure SMouseEvent where
  x : Int
  y : Int
  t : Int
  deriving DecidableEq, Repr

/-- Click event as persisted by `clickEventSchema`. -/
structure SClickEvent where
  x : Int
  y : Int
  btn : Int
  tgt : String
  t : Int
  deriving DecidableEq, Repr

/-- Scroll event as persisted by `scrollEventSchema` (x, y, t only). -/
structure SScrollEvent where
  x : Int
  y : Int
  t : Int
  deriving DecidableEq, Repr

/-- Key event as persisted by `keyEventSchema`: the schema declares the
single field `t` (a timestamp) and nothing else, so strict-mode
persistence keeps only `t`. -/
structure SKeyEvent where
  t : Int
  deriving DecidableEq, Repr

/-- Page view as persisted by `pageViewSchema`. -/
structure SPageView where
  url : String
  title : String
  ref : String
  t : Int
  deriving DecidableEq, Repr

/-- Fingerprint as persisted by `fingerprintSchema` (the authoritative
persisted subset of the client fingerprint). -/
structure SFingerprint where
  ua : String
  lang : String
  plat : String
  scrw : Int
  scrh : Int
  color : Int
  tz : String
  maxTouch : Int
  deriving DecidableEq, Repr

/-- The projection `keyEventSchema` applies to an incoming client key
event: only the schema field `t` survives (mongoose strict mode drops
`keyCode`, `location` and the modifier flags). -/
def persistKeyEvent (k : BotDetect.KeyEvent) : SKeyEvent :=
  { t := (k.t : Int) }

/-- A persisted `BehaviorData` document (`behaviorDataSchema`).
`collected_at` is the ingestion `Date` as epoch milliseconds. -/
structure BehaviorRecord where
  session_id : String
  session_start : Int
  mouse_events : List SMouseEvent
  click_events : List SClickEvent
  scroll_events : List SScrollEvent
  key_events : List SKeyEvent
  fingerprint : Option SFingerprint
  page_views : List SPageView
  collected_at : Nat
  ip_address : String
  user_agent : String
  deriving DecidableEq, Repr

/-- The request body of `POST /collect-behavior` after JSON parsing, in
the shape the schema accepts.  `session_id` is `none` when the field is
absent; JavaScript truthiness makes `none` and `some ""` both invalid. -/
structure IncomingBody where
  session_id : Option String
  session_start : Int
  mouse_events : List SMouseEvent
  click_events : List SClickEvent
  scroll_events : List SScrollEvent
  key_events : List SKeyEvent
  fingerprint : Option SFingerprint
  page_views : List SPageView
  deriving DecidableEq, Repr

/-- JavaScript falsiness of an optional string: `undefined` and `""` are
falsy, every other string is truthy. -/
def isFalsy : Option String → Bool
  | none => true
  | some s => s == ""

/-- `parseInt(q) || d`: absent / NaN and `0` both fall back to the
default. -/
def jsOr (v : Option Nat) (d : Nat) : Nat :=
  match v with
  | none => d
  | some 0 => d
  | some n => n

/-- `Math.ceil(a / b)` for natural `a` and positive natural `b`. -/
def ceilNat (a b : Nat) : Nat :=
  (a + b - 1) / b

/-- Distinct elements of a list in order of first occurrence (the
distinct session ids, as produced by the distinct-session-id query /
aggregation grouping over documents in insertion order). -/
def firstDistinct : List String → List String
  | [] => []
  | s :: rest => s :: firstDistinct (rest.filter (fun x => x ≠ s))
termination_by l => l.length
decreasing_by
  simp only [List.length_cons]
  exact Nat.lt_succ_of_le (List.length_filter_le _ _)

/-- Descending order on a natural-number key: `a` may precede `b` when
the key of `b` is at most the key of `a` (a descending sort order). -/
def descBy (f : α → Nat) (a b : α) : Prop :=
  f b ≤ f a

instance (f : α → Nat) : DecidableRel (descBy f) :=
  fun a b => inferInstanceAs (Decidable (f b ≤ f a))

instance (f : α → Nat) : IsTotal α (descBy f) :=
  ⟨fun a b => (Nat.le_total (f b) (f a)).imp id id⟩

instance (f : α → Nat) : IsTrans α (descBy f) :=
  ⟨fun _ _ _ h h' => Nat.le_trans h' h⟩

/-- Response of `POST /collect-behavior`. -/
structure CollectResponse where
  status : Nat
  success : Bool
  message : String
  session_id : Option String
  record_id : Option String
  deriving DecidableEq, Repr

/-- The `collectBehavior` controller.  `now` is the ingestion time,
`newId` the identifier mongoose generates for the created document, and
`dbFails` models `BehaviorData.create` throwing (the catch branch).
Returns the HTTP response and the database contents after the call. -/
def collectBehavior (db : List BehaviorRecord) (body : IncomingBody)
    (ip ua : String) (now : Nat) (newId : String) (dbFails : Bool) :
    CollectResponse × List BehaviorRecord :=
  if isFalsy body.session_id then
    ({ status := 400, success := false, message := "session_id is required",
       session_id := none, record_id := none }, db)
  else if dbFails then
    ({ status := 500, success := false, message := "Internal server error",
       session_id := none, record_id := none }, db)
  else
    let saved : BehaviorRecord :=
      { session_id := body.session_id.getD "",
        session_start := body.session_start,
        mouse_events := body.mouse_events,
        click_events := body.click_events,
        scroll_events := body.scroll_events,
        key_events := body.key_events,
        fingerprint := body.fingerprint,
        page_views := body.page_views,
        collected_at := now, ip_address := ip, user_agent := ua }
    ({ status := 200, success := true,
       message := "Behavior data collected successfully",
       session_id := some saved.session_id, record_id := some newId },
      db ++ [saved])

/-- Pagination metadata of `GET /behavior-data`. -/
structure Pagination where
  current : Nat
  total : Nat
  totalRecords : Nat
  hasNext : Bool
  hasPrev : Bool
  deriving DecidableEq, Repr

/-- Response of `GET /behavior-data`. -/
structure BehaviorDataResponse where
  success : Bool
  data : List BehaviorRecord
  pagination : Pagination
  deriving DecidableEq, Repr

/-- The `getBehaviorData` controller: optional exact session filter
(skipped when the query value is falsy), sort by `collected_at`
descending, offset/limit pagination, `Math.ceil` page count. -/
def getBehaviorData (db : List BehaviorRecord) (pageQ limitQ : Option Nat)
    (sessionQ : Option String) : BehaviorDataResponse :=
  let page := jsOr pageQ 1
  let limit := jsOr limitQ 50
  let skip := (page - 1) * limit
  let filtered :=
    if isFalsy sessionQ then db
    else db.filter (fun r => r.session_id == sessionQ.getD "")
  let sorted := List.insertionSort (descBy (·.collected_at)) filtered
  let total := filtered.length
  let totalPages := ceilNat total limit
  { success := true,
    data := (sorted.drop skip).take limit,
    pagination :=
      { current := page, total := totalPages, totalRecords := total,
        hasNext := decide (page < totalPages),
        hasPrev := decide (1 < page) } }

/-- One group of the `GET /sessions` aggregation. -/
structure SessionSummary where
  id : String
  session_start : Int
  fingerprint : Option SFingerprint
  last_activity : Nat
  page_views_count : Nat
  mouse_events_count : Nat
  click_events_count : Nat
  scroll_events_count : Nat
  key_events_count : Nat
  total_records : Nat
  deriving DecidableEq, Repr

/-- The per-session group built by the aggregation `$group` stage:
`$first` takes the value from the first document in pipeline (insertion)
order, `$max` the maximum ingestion time, `$sum $size` the summed array
lengths, `$sum 1` the record count. -/
def sessionSummary (db : List BehaviorRecord) (sid : String) :
    SessionSummary :=
  let recs := db.filter (fun r => r.session_id == sid)
  { id := sid,
    session_start := ((recs.head?).map (·.session_start)).getD 0,
    fingerprint := ((recs.head?).map (·.fingerprint)).getD none,
    last_activity := recs.foldr (fun r m => max r.collected_at m) 0,
    page_views_count := (recs.map (·.page_views.length)).sum,
    mouse_events_count := (recs.map (·.mouse_events.length)).sum,
    click_events_count := (recs.map (·.click_events.length)).sum,
    scroll_events_count := (recs.map (·.scroll_events.length)).sum,
    key_events_count := (recs.map (·.key_events.length)).sum,
    total_records := recs.length }

/-- Pagination metadata of `GET /sessions` (no has-next/has-prev). -/
structure SessionsPagination where
  current : Nat
  total : Nat
  totalSessions : Nat
  deriving DecidableEq, Repr

/-- Response of `GET /sessions`. -/
structure SessionsResponse where
  success : Bool
  data : List SessionSummary
  pagination : SessionsPagination
  deriving DecidableEq, Repr

/-- The `getSessions` controller: group by session id, sort the groups
by `last_activity` descending, offset/limit pagination, and the count of
distinct session ids. -/
def getSessions (db : List BehaviorRecord) (pageQ limitQ : Option Nat) :
    SessionsResponse :=
  let page := jsOr pageQ 1
  let limit := jsOr limitQ 50
  let skip := (page - 1) * limit
  let sids := firstDistinct (db.map (·.session_id))
  let summaries := sids.map (sessionSummary db)
  let sorted := List.insertionSort (descBy (·.last_activity)) summaries
  let totalSessions := sids.length
  { success := true,
    data := (sorted.drop skip).take limit,
    pagination :=
      { current := page, total := ceilNat totalSessions limit,
        totalSessions := totalSessions } }

/-- Event-type totals of `GET /stats`. -/
structure EventStats where
  total_mouse_events : Nat
  total_click_events : Nat
  total_scroll_events : Nat
  total_key_events : Nat
  total_page_views : Nat
  deriving DecidableEq, Repr

/-- The data object of `GET /stats`. -/
structure StatsData where
  total_records : Nat
  total_sessions : Nat
  last_24_hours : Nat
  event_statistics : EventStats
  deriving DecidableEq, Repr

/-- Milliseconds in 24 hours. -/
def DAY_MS : Nat := 24 * 60 * 60 * 1000

/-- The `getStats` controller.  The event statistics are summed over
`find(\x7b collected_at: \x7b $gte: last24Hours \x7d \x7d).limit(1000)`:
the first up-to-1000 matching documents in insertion (natural) order —
the query carries no sort stage. -/
def getStats (db : List BehaviorRecord) (now : Nat) : StatsData :=
  let last24Hours := now - DAY_MS
  let recent := db.filter (fun r => last24Hours ≤ r.collected_at)
  let sampleData := recent.take 1000
  { total_records := db.length,
    total_sessions := (firstDistinct (db.map (·.session_id))).length,
    last_24_hours := recent.length,
    event_statistics :=
      { total_mouse_events := (sampleData.map (·.mouse_events.length)).sum,
        total_click_events := (sampleData.map (·.click_events.length)).sum,
        total_scroll_events := (sampleData.map (·.scroll_events.length)).sum,
        total_key_events := (sampleData.map (·.key_events.length)).sum,
        total_page_views := (sampleData.map (·.page_views.length)).sum } }

/-- The event sample the specification describes for `GET /stats`: the
up-to-1000 MOST RECENT records of the 24-hour window (highest
`collected_at` first).  Stated from the words of the spec, for comparison
with the sample `getStats` actually takes. -/
def specMostRecentSample (db : List BehaviorRecord) (now : Nat) :
    List BehaviorRecord :=
  let recent := db.filter (fun r => now - DAY_MS ≤ r.collected_at)
  (List.insertionSort (descBy (·.collected_at)) recent).take 1000

end Backend

namespace Fixtures

open BotDetect Backend

/-- Fixture: a concrete client fingerprint. -/
def fp0 : ClientFingerprint :=
  { ua := "Mozilla/5.0", lang := "en-US", plat := "Linux", scrw := 1920,
    scrh := 1080, color := 24, tz := "UTC", maxTouch := 0, cookies := true,
    java := false, pdf := false, doNotTrack := "unspecified",
    connection := none, deviceMemory := none, hardwareConcurrency := none }

/-- Fixture: a concrete page view. -/
def pv0 : PageView :=
  { url := "/", title := "Home", ref := "", t := 1, loadTime := some 0,
    navType := none }

/-- Fixture: a client state with all queues empty. -/
def stEmpty : BehaviorData :=
  { session_id := "sess_1", session_start := 0, mouse_events := [],
    click_events := [], scroll_events := [], key_events := [],
    fingerprint := fp0, page_views := [], lastMouseTime := 0 }

/-- Fixture: empty event queues but a non-empty page-view queue. -/
def stPageOnly : BehaviorData := { stEmpty with page_views := [pv0] }

/-- Fixture: a concrete captured key event. -/
def k0 : BotDetect.KeyEvent :=
  { t := 3, keyCode := 65, location := 0, ctrl := false, shift := false,
    alt := false, meta := false }

/-- Fixture: a client state holding exactly one key event. -/
def stKeyOnly : BehaviorData := { stEmpty with key_events := [k0] }

/-- Fixture: the payload `sendData` builds from `stKeyOnly`. -/
def pSent : Payload :=
  { session_id := "sess_1", session_start := 0, mouse_events := [],
    click_events := [], scroll_events := [], key_events := [k0],
    fingerprint := fp0, page_views := [], current_url := "u",
    collected_at := 7 }

/-- Fixture: a keydown for the key with code 65 (letter A), no
modifiers, standard location. -/
def keyA : KeyInput :=
  { keyCode := 65, location := 0, ctrlKey := false, shiftKey := false,
    altKey := false, metaKey := false }

/-- Fixture: the same keydown but for the key with code 66 (letter B). -/
def keyB : KeyInput := { keyA with keyCode := 66 }

/-- Fixture: a client state whose page-view queue already holds
`MAX_EVENTS` entries. -/
def stManyViews : BehaviorData :=
  { stEmpty with page_views := List.replicate MAX_EVENTS pv0 }

/-- Fixture: a concrete mouse input. -/
def mIn : MouseInput :=
  { clientX := 10, clientY := 20, pageX := 10, pageY := 20,
    movementX := 1, movementY := 1 }

/-- Fixture: a stored backend record with `nMouse` mouse events and
`nPv` page views, ingested at `cAt`. -/
def sRec (sid : String) (cAt : Nat) (nPv nMouse : Nat) : BehaviorRecord :=
  { session_id := sid, session_start := 0,
    mouse_events := List.replicate nMouse { x := 0, y := 0, t := 0 },
    click_events := [], scroll_events := [], key_events := [],
    fingerprint := none,
    page_views :=
      List.replicate nPv { url := "/", title := "", ref := "", t := 0 },
    collected_at := cAt, ip_address := "", user_agent := "" }

/-- Fixture: two records for session s1 with 1 and 2 page views. -/
def dbS : List BehaviorRecord := [sRec "s1" 10 1 0, sRec "s1" 20 2 0]

/-- Fixture: five records for session s1 and one for s2. -/
def db5 : List BehaviorRecord :=
  [sRec "s1" 1 0 0, sRec "s1" 2 0 0, sRec "s1" 3 0 0, sRec "s1" 4 0 0,
   sRec "s1" 5 0 0, sRec "s2" 6 0 0]

/-- Fixture: an early record carrying one mouse event. -/
def rOld : BehaviorRecord := sRec "o" 1 0 1

/-- Fixture: a later record carrying no events. -/
def rZero : BehaviorRecord := sRec "z" 2 0 0

/-- Fixture: a database where the 1000 most recent records differ from
the first 1000 in insertion order. -/
def db9 : List BehaviorRecord := rOld :: List.replicate 1000 rZero

/-- Fixture: an incoming body with no session id. -/
def bodyNoSid : IncomingBody :=
  { session_id := none, session_start := 0, mouse_events := [],
    click_events := [], scroll_events := [], key_events := [],
    fingerprint := none, page_views := [] }

/-- Fixture: an incoming body for session s1. -/
def bodyS1 : IncomingBody := { bodyNoSid with session_id := some "s1" }

end Fixtures

open BotDetect Backend Fixtures

/-- The slice `jsSliceLast n l` is a suffix of `l`. -/
theorem jsSliceLast_suffix (n : Nat) (l : List α) : jsSliceLast n l <:+ l :=
  List.drop_suffix _ l

/-- The slice `jsSliceLast n l` keeps `min n l.length` elements. -/
theorem jsSliceLast_length (n : Nat) (l : List α) :
    (jsSliceLast n l).length = min n l.length := by
  simp [jsSliceLast]
  omega

/-- Membership in a slice implies membership in the original list. -/
theorem mem_of_mem_jsSliceLast {n : Nat} {l : List α} {x : α}
    (h : x ∈ jsSliceLast n l) : x ∈ l :=
  (jsSliceLast_suffix n l).mem h

/-- Consecutive-pair relations survive taking the last-`n` slice. -/
theorem chain'_jsSliceLast {R : α → α → Prop} {l : List α} (n : Nat)
    (h : List.Chain' R l) : List.Chain' R (jsSliceLast n l) :=
  h.suffix (jsSliceLast_suffix n l)

/-- The `ceilNat` page count is the exact ceiling of `a / b`: it is the
least number of pages covering all `a` records. -/
theorem ceilNat_spec (a b : Nat) (hb : 0 < b) :
    a ≤ ceilNat a b * b ∧ ceilNat a b * b < a + b := by
  have h := Nat.div_add_mod (a + b - 1) b
  have hr := Nat.mod_lt (a + b - 1) hb
  have hc : ceilNat a b * b = b * ((a + b - 1) / b) := by
    unfold ceilNat
    exact Nat.mul_comm _ _
  rw [hc]
  omega

/-- C10: a `sendData` call, skipped or not, leaves the session id, the
session start, the fingerprint and the page-view queue of the buffer
untouched; only the mouse, click, scroll and key queues can change. -/
theorem sendData_frame (st : BehaviorData) (url : String) (now : Nat)
    (beaconOk : Bool) :
    (sendData st url now beaconOk).2.session_id = st.session_id ∧
    (sendData st url now beaconOk).2.session_start = st.session_start ∧
    (sendData st url now beaconOk).2.fingerprint = st.fingerprint ∧
    (sendData st url now beaconOk).2.page_views = st.page_views ∧
    (sendData st url now beaconOk).2.lastMouseTime = st.lastMouseTime := by
  unfold sendData
  split
  · exact ⟨rfl, rfl, rfl, rfl, rfl⟩
  · exact ⟨rfl, rfl, rfl, rfl, rfl⟩

/-- C2 (amended): `sendData` skips exactly when the four event queues
(mouse, click, scroll, key) are all empty — the page-view queue does not
enter the decision — and any payload it does build carries the session
id, the session start, copies of all five event arrays, the fingerprint,
the current page URL and the send timestamp. -/
theorem sendData_contract (st : BehaviorData) (url : String) (now : Nat)
    (beaconOk : Bool) :
    ((sendData st url now beaconOk).1 = none ↔
      st.mouse_events = [] ∧ st.click_events = [] ∧
      st.scroll_events = [] ∧ st.key_events = []) ∧
    (∀ p, (sendData st url now beaconOk).1 = some p →
      p.session_id = st.session_id ∧ p.session_start = st.session_start ∧
      p.mouse_events = st.mouse_events ∧
      p.click_events = st.click_events ∧
      p.scroll_events = st.scroll_events ∧
      p.key_events = st.key_events ∧ p.fingerprint = st.fingerprint ∧
      p.page_views = st.page_views ∧ p.current_url = url ∧
      p.collected_at = now) := by
  unfold sendData
  split
  case isTrue h =>
    simp only [Bool.and_eq_true, beq_iff_eq, List.length_eq_zero] at h
    constructor
    · simp only [true_iff]
      exact ⟨h.1.1.1, h.1.1.2, h.1.2, h.2⟩
    · intro p hp
      exact absurd hp (by simp)
  case isFalse h =>
    constructor
    · constructor
      · intro habs
        exact absurd habs (by simp)
      · intro he
        exact absurd (by
          simp only [Bool.and_eq_true, beq_iff_eq, List.length_eq_zero]
          exact ⟨⟨⟨he.1, he.2.1⟩, he.2.2.1⟩, he.2.2.2⟩) h
    · intro p hp
      have hp' : p =
          { session_id := st.session_id, session_start := st.session_start,
            mouse_events := st.mouse_events,
            click_events := st.click_events,
            scroll_events := st.scroll_events,
            key_events := st.key_events, fingerprint := st.fingerprint,
            page_views := st.page_views, current_url := url,
            collected_at := now } := by
        injection hp with hp''
        exact hp''.symm
      subst hp'
      exact ⟨rfl, rfl, rfl, rfl, rfl, rfl, rfl, rfl, rfl, rfl⟩

/-- C2 counterexample: on a buffer whose page-view queue is the only
non-empty queue, `sendData` skips, so the skip condition is not
"all five queues empty" as claimed. -/
theorem sendData_five_queue_claim_false :
    ¬ (((sendData stPageOnly "u" 1 true).1 = none) ↔
       (stPageOnly.mouse_events = [] ∧ stPageOnly.click_events = [] ∧
        stPageOnly.scroll_events = [] ∧ stPageOnly.key_events = [] ∧
        stPageOnly.page_views = [])) := by
  decide

/-- C2 witness: the contract applied to the concrete one-key-event
buffer, whose built payload is `pSent`. -/
theorem sendData_contract_witness :
    pSent.session_id = stKeyOnly.session_id ∧
    pSent.session_start = stKeyOnly.session_start ∧
    pSent.mouse_events = stKeyOnly.mouse_events ∧
    pSent.click_events = stKeyOnly.click_events ∧
    pSent.scroll_events = stKeyOnly.scroll_events ∧
    pSent.key_events = stKeyOnly.key_events ∧
    pSent.fingerprint = stKeyOnly.fingerprint ∧
    pSent.page_views = stKeyOnly.page_views ∧
    pSent.current_url = "u" ∧ pSent.collected_at = 7 :=
  (sendData_contract stKeyOnly "u" 7 true).2 pSent (by decide)

/-- A capped push returns a suffix of the plain push. -/
theorem pushCap_suffix (floor : Nat) (l : List α) (x : α) :
    pushCap floor l x <:+ l ++ [x] := by
  simp only [pushCap]
  split
  · exact jsSliceLast_suffix _ _
  · exact List.suffix_rfl

/-- A capped push never leaves more than `MAX_EVENTS` elements when the
queue was within the cap and the floor is within the cap. -/
theorem pushCap_le (floor : Nat) (l : List α) (x : α)
    (hf : floor ≤ MAX_EVENTS) (hl : l.length ≤ MAX_EVENTS) :
    (pushCap floor l x).length ≤ MAX_EVENTS := by
  simp only [pushCap]
  split
  case isTrue h =>
    rw [jsSliceLast_length]
    omega
  case isFalse h =>
    simp only [List.length_append, List.length_cons, List.length_nil] at h ⊢
    omega

/-- Pushing onto a queue already at the cap cuts it to exactly the
retention floor. -/
theorem pushCap_overflow (floor : Nat) (l : List α) (x : α)
    (hf : floor ≤ MAX_EVENTS) (hl : l.length = MAX_EVENTS) :
    (pushCap floor l x).length = floor := by
  simp only [pushCap]
  split
  case isTrue h =>
    rw [jsSliceLast_length]
    simp only [List.length_append, List.length_cons, List.length_nil]
    omega
  case isFalse h =>
    simp only [List.length_append, List.length_cons, List.length_nil] at h
    omega

/-- Consecutive-pair relations survive a capped push whenever they
survive the plain push. -/
theorem chain'_pushCap {R : α → α → Prop} (floor : Nat) {l : List α}
    {x : α} (h : List.Chain' R (l ++ [x])) :
    List.Chain' R (pushCap floor l x) :=
  h.suffix (pushCap_suffix floor l x)

/-- Membership after a capped push implies the element was in the queue
or is the pushed element. -/
theorem mem_pushCap {floor : Nat} {l : List α} {x y : α}
    (h : y ∈ pushCap floor l x) : y ∈ l ∨ y = x := by
  have := (pushCap_suffix floor l x).mem h
  simpa using this

/-- The mouse queue after `sendData` keeps any consecutive-pair relation
the queue had before. -/
theorem sendData_mouse_chain {R : MouseEvent → MouseEvent → Prop}
    (st : BehaviorData) (url : String) (now : Nat) (beaconOk : Bool)
    (h : List.Chain' R st.mouse_events) :
    List.Chain' R ((sendData st url now beaconOk).2.mouse_events) := by
  unfold sendData
  split
  · exact h
  · exact chain'_jsSliceLast 50 h

/-- C1: the `keydown` listener captures `e.keyCode`, which identifies
the key pressed — two presses differing only in the key pressed yield
different stored events — contradicting the privacy constraint (and the
comments of the listener itself, which promise no actual keys); the server-side
`keyEventSchema`, by contrast, persists only the timestamp, so the
persisted form of two such events is identical. -/
theorem keydown_captures_key_identity :
    (handleKeyDown stEmpty keyA 5).key_events =
      [{ t := 5, keyCode := 65, location := 0, ctrl := false,
         shift := false, alt := false, meta := false }] ∧
    (handleKeyDown stEmpty keyA 5).key_events ≠
      (handleKeyDown stEmpty keyB 5).key_events ∧
    persistKeyEvent
        { t := 5, keyCode := 65, location := 0, ctrl := false,
          shift := false, alt := false, meta := false } =
      persistKeyEvent
        { t := 5, keyCode := 66, location := 0, ctrl := false,
          shift := false, alt := false, meta := false } := by
  refine ⟨by decide, by decide, rfl⟩

/-- C3: after a non-skipped `sendData`, each of the four event queues is
cut to a suffix (the most recent elements) of exactly `min floor length`
elements — floors 50 (mouse), 20 (click), 10 (scroll), 30 (key) — so no
queue keeps more than its retention floor, whatever the delivery
outcome was. -/
theorem sendData_truncation (st : BehaviorData) (url : String) (now : Nat)
    (beaconOk : Bool)
    (h : ¬ (st.mouse_events = [] ∧ st.click_events = [] ∧
            st.scroll_events = [] ∧ st.key_events = [])) :
    ((sendData st url now beaconOk).2.mouse_events.length =
        min 50 st.mouse_events.length ∧
      (sendData st url now beaconOk).2.mouse_events <:+ st.mouse_events) ∧
    ((sendData st url now beaconOk).2.click_events.length =
        min 20 st.click_events.length ∧
      (sendData st url now beaconOk).2.click_events <:+ st.click_events) ∧
    ((sendData st url now beaconOk).2.scroll_events.length =
        min 10 st.scroll_events.length ∧
      (sendData st url now beaconOk).2.scroll_events <:+
        st.scroll_events) ∧
    ((sendData st url now beaconOk).2.key_events.length =
        min 30 st.key_events.length ∧
      (sendData st url now beaconOk).2.key_events <:+ st.key_events) := by
  unfold sendData
  split
  case isTrue hg =>
    simp only [Bool.and_eq_true, beq_iff_eq, List.length_eq_zero] at hg
    exact absurd ⟨hg.1.1.1, hg.1.1.2, hg.1.2, hg.2⟩ h
  case isFalse hg =>
    exact ⟨⟨jsSliceLast_length _ _, jsSliceLast_suffix _ _⟩,
           ⟨jsSliceLast_length _ _, jsSliceLast_suffix _ _⟩,
           ⟨jsSliceLast_length _ _, jsSliceLast_suffix _ _⟩,
           ⟨jsSliceLast_length _ _, jsSliceLast_suffix _ _⟩⟩

/-- C3 witness: the truncation contract applied to the concrete buffer
holding one key event. -/
theorem sendData_truncation_witness :
    ((sendData stKeyOnly "u" 7 true).2.mouse_events.length =
        min 50 stKeyOnly.mouse_events.length ∧
      (sendData stKeyOnly "u" 7 true).2.mouse_events <:+
        stKeyOnly.mouse_events) ∧
    ((sendData stKeyOnly "u" 7 true).2.click_events.length =
        min 20 stKeyOnly.click_events.length ∧
      (sendData stKeyOnly "u" 7 true).2.click_events <:+
        stKeyOnly.click_events) ∧
    ((sendData stKeyOnly "u" 7 true).2.scroll_events.length =
        min 10 stKeyOnly.scroll_events.length ∧
      (sendData stKeyOnly "u" 7 true).2.scroll_events <:+
        stKeyOnly.scroll_events) ∧
    ((sendData stKeyOnly "u" 7 true).2.key_events.length =
        min 30 stKeyOnly.key_events.length ∧
      (sendData stKeyOnly "u" 7 true).2.key_events <:+
        stKeyOnly.key_events) :=
  sendData_truncation stKeyOnly "u" 7 true (by decide)

/-- C4 (amended): the four listener-fed queues (mouse, click, scroll,
key) are capped: the event is pushed to the tail, the result is always a
suffix of that push, a queue within `MAX_EVENTS` stays within
`MAX_EVENTS`, and a push onto a full queue cuts it from the head to the
category floor (500 / 200 / 100 / 300).  The page-view queue, in
contrast, is plain append with no cap. -/
theorem listener_queue_caps (st : BehaviorData) (e₁ : MouseInput)
    (e₂ : ClickInput) (e₃ : ScrollInput) (e₄ : KeyInput) (pv : PageView)
    (now : Nat) :
    (st.lastMouseTime + 50 < now →
      (handleMouseMove st e₁ now).mouse_events <:+
        st.mouse_events ++ [mouseEventOf e₁ now] ∧
      (st.mouse_events.length ≤ MAX_EVENTS →
        (handleMouseMove st e₁ now).mouse_events.length ≤ MAX_EVENTS) ∧
      (st.mouse_events.length = MAX_EVENTS →
        (handleMouseMove st e₁ now).mouse_events.length = 500)) ∧
    ((handleClick st e₂ now).click_events <:+
        st.click_events ++ [clickEventOf e₂ now] ∧
      (st.click_events.length ≤ MAX_EVENTS →
        (handleClick st e₂ now).click_events.length ≤ MAX_EVENTS) ∧
      (st.click_events.length = MAX_EVENTS →
        (handleClick st e₂ now).click_events.length = 200)) ∧
    ((handleScroll st e₃ now).scroll_events <:+
        st.scroll_events ++ [scrollEventOf e₃ now] ∧
      (st.scroll_events.length ≤ MAX_EVENTS →
        (handleScroll st e₃ now).scroll_events.length ≤ MAX_EVENTS) ∧
      (st.scroll_events.length = MAX_EVENTS →
        (handleScroll st e₃ now).scroll_events.length = 100)) ∧
    ((handleKeyDown st e₄ now).key_events <:+
        st.key_events ++ [keyEventOf e₄ now] ∧
      (st.key_events.length ≤ MAX_EVENTS →
        (handleKeyDown st e₄ now).key_events.length ≤ MAX_EVENTS) ∧
      (st.key_events.length = MAX_EVENTS →
        (handleKeyDown st e₄ now).key_events.length = 300)) ∧
    (pushPageView st pv).page_views = st.page_views ++ [pv] := by
  refine ⟨?_, ?_, ?_, ?_, rfl⟩
  · intro hg
    simp only [handleMouseMove, if_pos hg]
    exact ⟨pushCap_suffix _ _ _,
           fun hl => pushCap_le _ _ _ (by decide) hl,
           fun hl => pushCap_overflow _ _ _ (by decide) hl⟩
  · exact ⟨pushCap_suffix _ _ _,
           fun hl => pushCap_le _ _ _ (by decide) hl,
           fun hl => pushCap_overflow _ _ _ (by decide) hl⟩
  · exact ⟨pushCap_suffix _ _ _,
           fun hl => pushCap_le _ _ _ (by decide) hl,
           fun hl => pushCap_overflow _ _ _ (by decide) hl⟩
  · exact ⟨pushCap_suffix _ _ _,
           fun hl => pushCap_le _ _ _ (by decide) hl,
           fun hl => pushCap_overflow _ _ _ (by decide) hl⟩

/-- C4 counterexample: appending a page view to a page-view queue
already holding `MAX_EVENTS` entries leaves `MAX_EVENTS + 1` entries —
the page-view queue has no cap, so not every one of the five queues is
bounded by `MAX_EVENTS`. -/
theorem pageViews_cap_claim_false :
    MAX_EVENTS < (pushPageView stManyViews pv0).page_views.length := by
  simp [pushPageView, stManyViews, stEmpty]

/-- C4 witness: the cap contract applied to the empty buffer at time
100 (mouse guard satisfied). -/
theorem listener_queue_caps_witness :
    (handleMouseMove stEmpty mIn 100).mouse_events <:+
      stEmpty.mouse_events ++ [mouseEventOf mIn 100] ∧
    (handleKeyDown stEmpty keyA 5).key_events <:+
      stEmpty.key_events ++ [keyEventOf keyA 5] ∧
    (pushPageView stEmpty pv0).page_views = stEmpty.page_views ++ [pv0] := by
  have h := listener_queue_caps stEmpty mIn (ClickInput.mk 0 0 0 "" "" "" "")
    (ScrollInput.mk 0 0 0 0 0 0) keyA pv0 100
  have h1 := (h.1 (by decide)).1
  have hk := listener_queue_caps stEmpty mIn (ClickInput.mk 0 0 0 "" "" "" "")
    (ScrollInput.mk 0 0 0 0 0 0) keyA pv0 5
  exact ⟨h1, hk.2.2.2.1.1, h.2.2.2.2⟩

/-- C5: mouse events are appended only when more than 50ms have elapsed
since the last appended mouse event (otherwise the state is unchanged),
and in consequence consecutive retained mouse events are always at
least 50ms apart — an invariant that survives both the cap
cut of the listener and the post-flush truncation. -/
theorem mouse_rate_limit (st : BehaviorData) (e : MouseInput) (now : Nat)
    (hChain : List.Chain' (fun a b => a.t + 50 ≤ b.t) st.mouse_events)
    (hLast : ∀ x ∈ st.mouse_events, x.t ≤ st.lastMouseTime) :
    (¬ st.lastMouseTime + 50 < now → handleMouseMove st e now = st) ∧
    List.Chain' (fun a b => a.t + 50 ≤ b.t)
      (handleMouseMove st e now).mouse_events ∧
    (∀ x ∈ (handleMouseMove st e now).mouse_events,
      x.t ≤ (handleMouseMove st e now).lastMouseTime) ∧
    (∀ url now2 b2, List.Chain' (fun a b => a.t + 50 ≤ b.t)
      ((sendData (handleMouseMove st e now) url now2 b2).2.mouse_events)) := by
  by_cases hg : st.lastMouseTime + 50 < now
  · have hpush : List.Chain' (fun a b => a.t + 50 ≤ b.t)
        (st.mouse_events ++ [mouseEventOf e now]) := by
      rw [List.chain'_append]
      refine ⟨hChain, List.chain'_singleton _, ?_⟩
      intro x hx y hy
      have hxm : x ∈ st.mouse_events := List.mem_of_mem_getLast? hx
      have hyx : mouseEventOf e now = y := by
        simpa using hy
      subst hyx
      have := hLast x hxm
      simp only [mouseEventOf]
      omega
    have hres : (handleMouseMove st e now).mouse_events =
        pushCap 500 st.mouse_events (mouseEventOf e now) := by
      simp [handleMouseMove, if_pos hg]
    have hchain' : List.Chain' (fun a b => a.t + 50 ≤ b.t)
        (handleMouseMove st e now).mouse_events := by
      rw [hres]
      exact chain'_pushCap 500 hpush
    refine ⟨fun hng => absurd hg hng, hchain', ?_, ?_⟩
    · intro x hx
      rw [hres] at hx
      have hlm : (handleMouseMove st e now).lastMouseTime = now := by
        simp [handleMouseMove, if_pos hg]
      rw [hlm]
      rcases mem_pushCap hx with hmem | hnew
      · have := hLast x hmem
        omega
      · subst hnew
        simp [mouseEventOf]
    · intro url now2 b2
      exact sendData_mouse_chain _ url now2 b2 hchain'
  · have hid : handleMouseMove st e now = st := by
      simp [handleMouseMove, if_neg hg]
    rw [hid]
    exact ⟨fun _ => rfl, hChain, hLast,
           fun url now2 b2 => sendData_mouse_chain st url now2 b2 hChain⟩

/-- C5 witness: the rate-limit invariant applied to the empty buffer
(whose empty mouse queue trivially satisfies the invariant). -/
theorem mouse_rate_limit_witness :
    (¬ stEmpty.lastMouseTime + 50 < 100 →
      handleMouseMove stEmpty mIn 100 = stEmpty) ∧
    List.Chain' (fun a b => a.t + 50 ≤ b.t)
      (handleMouseMove stEmpty mIn 100).mouse_events ∧
    (∀ x ∈ (handleMouseMove stEmpty mIn 100).mouse_events,
      x.t ≤ (handleMouseMove stEmpty mIn 100).lastMouseTime) ∧
    (∀ url now2 b2, List.Chain' (fun a b => a.t + 50 ≤ b.t)
      ((sendData (handleMouseMove stEmpty mIn 100) url now2 b2).2.mouse_events)) :=
  mouse_rate_limit stEmpty mIn 100 (by simp [stEmpty]) (by simp [stEmpty])

/-- C6: `POST /collect-behavior` — a falsy (absent or empty) session id
yields 400 and leaves the store unchanged; otherwise, on persistence
failure the response is 500 with the generic message and the store is
unchanged, and on success exactly one record — stamped with the caller
address and user-agent — is appended and the response is 200 with the
session id and the generated record identifier. -/
theorem collectBehavior_contract (db : List BehaviorRecord)
    (body : IncomingBody) (ip ua : String) (now : Nat) (newId : String)
    (dbFails : Bool) :
    (isFalsy body.session_id = true →
      (collectBehavior db body ip ua now newId dbFails).1.status = 400 ∧
      (collectBehavior db body ip ua now newId dbFails).1.success = false ∧
      (collectBehavior db body ip ua now newId dbFails).2 = db) ∧
    (isFalsy body.session_id = false → dbFails = true →
      (collectBehavior db body ip ua now newId dbFails).1.status = 500 ∧
      (collectBehavior db body ip ua now newId dbFails).1.message =
        "Internal server error" ∧
      (collectBehavior db body ip ua now newId dbFails).2 = db) ∧
    (isFalsy body.session_id = false → dbFails = false →
      (collectBehavior db body ip ua now newId dbFails).1.status = 200 ∧
      (collectBehavior db body ip ua now newId dbFails).1.session_id =
        body.session_id ∧
      (collectBehavior db body ip ua now newId dbFails).1.record_id =
        some newId ∧
      (collectBehavior db body ip ua now newId dbFails).2.length =
        db.length + 1 ∧
      ∃ r, (collectBehavior db body ip ua now newId dbFails).2 =
          db ++ [r] ∧
        r.ip_address = ip ∧ r.user_agent = ua ∧
        some r.session_id = body.session_id ∧
        r.session_start = body.session_start ∧
        r.mouse_events = body.mouse_events ∧
        r.click_events = body.click_events ∧
        r.scroll_events = body.scroll_events ∧
        r.key_events = body.key_events ∧
        r.fingerprint = body.fingerprint ∧
        r.page_views = body.page_views ∧ r.collected_at = now) := by
  refine ⟨?_, ?_, ?_⟩
  · intro hf
    simp [collectBehavior, hf]
  · intro hf hd
    simp [collectBehavior, hf, hd]
  · intro hf hd
    obtain ⟨s, hs⟩ : ∃ s, body.session_id = some s := by
      cases hbs : body.session_id with
      | none => simp [isFalsy, hbs] at hf
      | some s => exact ⟨s, rfl⟩
    have hgd : body.session_id.getD "" = s := by rw [hs]; rfl
    refine ⟨by simp [collectBehavior, hf, hd], ?_,
            by simp [collectBehavior, hf, hd],
            by simp [collectBehavior, hf, hd], ?_⟩
    · simp only [collectBehavior, hf, Bool.false_eq_true, if_false, hd]
      rw [hgd, hs]
    · refine ⟨{ session_id := body.session_id.getD "",
                session_start := body.session_start,
                mouse_events := body.mouse_events,
                click_events := body.click_events,
                scroll_events := body.scroll_events,
                key_events := body.key_events,
                fingerprint := body.fingerprint,
                page_views := body.page_views, collected_at := now,
                ip_address := ip, user_agent := ua },
              by simp [collectBehavior, hf, hd], rfl, rfl, ?_,
              rfl, rfl, rfl, rfl, rfl, rfl, rfl, rfl⟩
      show some (body.session_id.getD "") = body.session_id
      rw [hgd, hs]

/-- C6 witness: the contract applied to a body with no session id (400,
nothing stored) and to a valid body for session s1 (200, one record
stored). -/
theorem collectBehavior_contract_witness :
    ((collectBehavior [] bodyNoSid "1.2.3.4" "UA" 5 "id1" false).1.status =
        400 ∧
      (collectBehavior [] bodyNoSid "1.2.3.4" "UA" 5 "id1" false).1.success =
        false ∧
      (collectBehavior [] bodyNoSid "1.2.3.4" "UA" 5 "id1" false).2 = []) ∧
    ((collectBehavior [] bodyS1 "1.2.3.4" "UA" 5 "id1" false).1.status =
        200 ∧
      (collectBehavior [] bodyS1 "1.2.3.4" "UA" 5 "id1" false).1.session_id =
        bodyS1.session_id ∧
      (collectBehavior [] bodyS1 "1.2.3.4" "UA" 5 "id1" false).1.record_id =
        some "id1" ∧
      (collectBehavior [] bodyS1 "1.2.3.4" "UA" 5 "id1" false).2.length =
        List.length ([] : List BehaviorRecord) + 1 ∧
      ∃ r, (collectBehavior [] bodyS1 "1.2.3.4" "UA" 5 "id1" false).2 =
          [] ++ [r] ∧
        r.ip_address = "1.2.3.4" ∧ r.user_agent = "UA" ∧
        some r.session_id = bodyS1.session_id ∧
        r.session_start = bodyS1.session_start ∧
        r.mouse_events = bodyS1.mouse_events ∧
        r.click_events = bodyS1.click_events ∧
        r.scroll_events = bodyS1.scroll_events ∧
        r.key_events = bodyS1.key_events ∧
        r.fingerprint = bodyS1.fingerprint ∧
        r.page_views = bodyS1.page_views ∧ r.collected_at = 5) :=
  ⟨(collectBehavior_contract [] bodyNoSid "1.2.3.4" "UA" 5 "id1" false).1
      (by decide),
   (collectBehavior_contract [] bodyS1 "1.2.3.4" "UA" 5 "id1" false).2.2
      (by decide) rfl⟩

/-- A defaulted query value is positive when the default is. -/
theorem jsOr_pos (v : Option Nat) (d : Nat) (hd : 0 < d) : 0 < jsOr v d := by
  cases v with
  | none => simpa [jsOr] using hd
  | some n =>
    cases n with
    | zero => simpa [jsOr] using hd
    | succ k => simp [jsOr]

/-- C7: `GET /behavior-data` returns at most `limit` records, sorted by
ingestion time descending, all matching the (truthy) session filter and
all drawn from the store; the page metadata defaults page to 1, counts
pages as the exact ceiling of matching records over `limit`, and sets
has-next/has-prev exactly for `page < totalPages` / `page > 1`; the data
window is the `(page-1)*limit` offset slice of the sorted matches. -/
theorem getBehaviorData_spec (db : List BehaviorRecord)
    (pq lq : Option Nat) (sq : Option String) :
    (getBehaviorData db pq lq sq).data.length ≤ jsOr lq 50 ∧
    List.Sorted (descBy (fun r => r.collected_at))
      (getBehaviorData db pq lq sq).data ∧
    (∀ sid, sq = some sid → sid ≠ "" →
      ∀ r ∈ (getBehaviorData db pq lq sq).data, r.session_id = sid) ∧
    (∀ r ∈ (getBehaviorData db pq lq sq).data, r ∈ db) ∧
    (getBehaviorData db pq lq sq).pagination.current = jsOr pq 1 ∧
    (getBehaviorData db pq lq sq).pagination.totalRecords ≤
      (getBehaviorData db pq lq sq).pagination.total * jsOr lq 50 ∧
    (getBehaviorData db pq lq sq).pagination.total * jsOr lq 50 <
      (getBehaviorData db pq lq sq).pagination.totalRecords + jsOr lq 50 ∧
    ((getBehaviorData db pq lq sq).pagination.hasNext = true ↔
      (getBehaviorData db pq lq sq).pagination.current <
        (getBehaviorData db pq lq sq).pagination.total) ∧
    ((getBehaviorData db pq lq sq).pagination.hasPrev = true ↔
      1 < (getBehaviorData db pq lq sq).pagination.current) ∧
    (getBehaviorData db pq lq sq).data =
      ((List.insertionSort (descBy (fun r => r.collected_at))
          (if isFalsy sq then db
           else db.filter (fun r => r.session_id == sq.getD ""))).drop
        ((jsOr pq 1 - 1) * jsOr lq 50)).take (jsOr lq 50) := by
  have hdata : (getBehaviorData db pq lq sq).data =
      ((List.insertionSort (descBy (fun r => r.collected_at))
          (if isFalsy sq then db
           else db.filter (fun r => r.session_id == sq.getD ""))).drop
        ((jsOr pq 1 - 1) * jsOr lq 50)).take (jsOr lq 50) := rfl
  have hsub : (getBehaviorData db pq lq sq).data.Sublist
      (List.insertionSort (descBy (fun r => r.collected_at))
        (if isFalsy sq then db
         else db.filter (fun r => r.session_id == sq.getD ""))) := by
    rw [hdata]
    exact (List.take_sublist _ _).trans (List.drop_sublist _ _)
  have hmemf : ∀ r ∈ (getBehaviorData db pq lq sq).data,
      r ∈ (if isFalsy sq then db
           else db.filter (fun r => r.session_id == sq.getD "")) := by
    intro r hr
    exact (List.perm_insertionSort _ _).mem_iff.mp (hsub.subset hr)
  have hlimpos : 0 < jsOr lq 50 := jsOr_pos lq 50 (by decide)
  have hceil := ceilNat_spec
    ((if isFalsy sq then db
      else db.filter (fun r => r.session_id == sq.getD "")).length)
    (jsOr lq 50) hlimpos
  refine ⟨?_, ?_, ?_, ?_, rfl, hceil.1, hceil.2, ?_, ?_, hdata⟩
  · rw [hdata]
    exact List.length_take_le _ _
  · exact List.Pairwise.sublist hsub (List.sorted_insertionSort _ _)
  · intro sid hsq hne r hr
    have hmem := hmemf r hr
    have hfal : isFalsy sq = false := by
      subst hsq
      simpa [isFalsy] using hne
    rw [hfal] at hmem
    simp only [Bool.false_eq_true, if_false, List.mem_filter,
      beq_iff_eq] at hmem
    rw [hmem.2, hsq]
    rfl
  · intro r hr
    have hmem := hmemf r hr
    by_cases hfal : isFalsy sq = true
    · rwa [hfal, if_pos rfl] at hmem
    · rw [Bool.not_eq_true] at hfal
      rw [hfal] at hmem
      simp only [Bool.false_eq_true, if_false, List.mem_filter] at hmem
      exact hmem.1
  · exact decide_eq_true_iff
  · exact decide_eq_true_iff

/-- C7 witness: the pagination contract applied to a store with five s1
records and one s2 record, page 1, limit 2, filter s1. -/
theorem getBehaviorData_spec_witness :
    (getBehaviorData db5 (some 1) (some 2) (some "s1")).data.length ≤
      jsOr (some 2) 50 ∧
    (∀ r ∈ (getBehaviorData db5 (some 1) (some 2) (some "s1")).data,
      r.session_id = "s1") ∧
    ((getBehaviorData db5 (some 1) (some 2) (some "s1")).pagination.hasNext =
        true ↔
      (getBehaviorData db5 (some 1) (some 2) (some "s1")).pagination.current <
        (getBehaviorData db5 (some 1) (some 2) (some "s1")).pagination.total) := by
  have h := getBehaviorData_spec db5 (some 1) (some 2) (some "s1")
  exact ⟨h.1, h.2.2.1 "s1" rfl (by decide), h.2.2.2.2.2.2.2.1⟩

/-- Membership in the distinct-id list is membership in the original. -/
theorem mem_firstDistinct (l : List String) (s : String) :
    s ∈ firstDistinct l ↔ s ∈ l := by
  induction l using firstDistinct.induct with
  | case1 => simp [firstDistinct]
  | case2 a rest ih =>
    rw [firstDistinct]
    by_cases hsa : s = a
    · subst hsa
      simp
    · simp only [List.mem_cons, ih, List.mem_filter]
      constructor
      · rintro (h | h)
        · exact Or.inl h
        · exact Or.inr h.1
      · rintro (h | h)
        · exact Or.inl h
        · exact Or.inr ⟨h, by simpa using hsa⟩

/-- The distinct-id list has no duplicates. -/
theorem nodup_firstDistinct (l : List String) : (firstDistinct l).Nodup := by
  induction l using firstDistinct.induct with
  | case1 => simp [firstDistinct]
  | case2 a rest ih =>
    rw [firstDistinct]
    refine List.nodup_cons.mpr ⟨?_, ih⟩
    intro hmem
    have := (mem_firstDistinct _ _).mp hmem
    simp at this

/-- The distinct-id list covers exactly the ids of the original list. -/
theorem toFinset_firstDistinct (l : List String) :
    (firstDistinct l).toFinset = l.toFinset := by
  induction l using firstDistinct.induct with
  | case1 => simp [firstDistinct]
  | case2 a rest ih =>
    rw [firstDistinct]
    have hft : (rest.filter (fun x => x ≠ a)).toFinset =
        rest.toFinset.erase a := by
      ext x
      simp only [List.mem_toFinset, List.mem_filter, Finset.mem_erase,
        decide_eq_true_eq]
      tauto
    simp only [List.toFinset_cons, ih, hft]
    ext x
    simp only [Finset.mem_insert, Finset.mem_erase]
    tauto

/-- The length of the distinct-id list is the number of distinct ids. -/
theorem length_firstDistinct (l : List String) :
    (firstDistinct l).length = l.toFinset.card := by
  rw [← toFinset_firstDistinct]
  exact (List.toFinset_card_of_nodup (nodup_firstDistinct l)).symm

/-- Every element of a record list is bounded by the running maximum of
ingestion times that the aggregation computes. -/
theorem le_foldr_max (recs : List BehaviorRecord) (r : BehaviorRecord)
    (hr : r ∈ recs) :
    r.collected_at ≤ recs.foldr (fun x m => max x.collected_at m) 0 := by
  induction recs with
  | nil => cases hr
  | cons a tl ih =>
    rcases List.mem_cons.mp hr with h | h
    · subst h
      exact Nat.le_max_left _ _
    · exact Nat.le_trans (ih h) (Nat.le_max_right _ _)

/-- The running maximum of ingestion times is attained on a non-empty
record list. -/
theorem foldr_max_mem (recs : List BehaviorRecord) (hne : recs ≠ []) :
    recs.foldr (fun x m => max x.collected_at m) 0 ∈
      recs.map (fun r => r.collected_at) := by
  induction recs with
  | nil => exact absurd rfl hne
  | cons a tl ih =>
    cases tl with
    | nil => simp
    | cons b tl' =>
      have hfold : (a :: b :: tl').foldr (fun x m => max x.collected_at m) 0 =
          max a.collected_at
            ((b :: tl').foldr (fun x m => max x.collected_at m) 0) := rfl
      rcases max_choice a.collected_at
        ((b :: tl').foldr (fun x m => max x.collected_at m) 0) with h | h
      · rw [List.map_cons, List.mem_cons, hfold, h]
        exact Or.inl rfl
      · rw [List.map_cons, List.mem_cons, hfold, h]
        exact Or.inr (ih (by simp))

/-- C8: the `GET /sessions` aggregation — each group carries the
first-seen session start and fingerprint, the last activity as the
attained maximum ingestion time of the group, per-category counts equal
to the summed array lengths, and the record count of the group; the
returned page lists genuine groups of stored session ids, sorted by
last activity descending, at most `limit` of them, and the reported
total is the number of distinct session ids. -/
theorem getSessions_spec (db : List BehaviorRecord) (pq lq : Option Nat) :
    (∀ sid r rest, db.filter (fun x => x.session_id == sid) = r :: rest →
      (sessionSummary db sid).session_start = r.session_start ∧
      (sessionSummary db sid).fingerprint = r.fingerprint) ∧
    (∀ sid,
      (∀ r ∈ db.filter (fun x => x.session_id == sid),
        r.collected_at ≤ (sessionSummary db sid).last_activity) ∧
      (db.filter (fun x => x.session_id == sid) ≠ [] →
        (sessionSummary db sid).last_activity ∈
          (db.filter (fun x => x.session_id == sid)).map
            (fun r => r.collected_at)) ∧
      (sessionSummary db sid).page_views_count =
        ((db.filter (fun x => x.session_id == sid)).map
          (fun r => r.page_views.length)).sum ∧
      (sessionSummary db sid).mouse_events_count =
        ((db.filter (fun x => x.session_id == sid)).map
          (fun r => r.mouse_events.length)).sum ∧
      (sessionSummary db sid).click_events_count =
        ((db.filter (fun x => x.session_id == sid)).map
          (fun r => r.click_events.length)).sum ∧
      (sessionSummary db sid).scroll_events_count =
        ((db.filter (fun x => x.session_id == sid)).map
          (fun r => r.scroll_events.length)).sum ∧
      (sessionSummary db sid).key_events_count =
        ((db.filter (fun x => x.session_id == sid)).map
          (fun r => r.key_events.length)).sum ∧
      (sessionSummary db sid).total_records =
        (db.filter (fun x => x.session_id == sid)).length) ∧
    (∀ s ∈ (getSessions db pq lq).data, ∃ sid,
      sid ∈ db.map (fun r => r.session_id) ∧ s = sessionSummary db sid) ∧
    List.Sorted (descBy (fun s => s.last_activity))
      (getSessions db pq lq).data ∧
    (getSessions db pq lq).data.length ≤ jsOr lq 50 ∧
    (getSessions db pq lq).pagination.totalSessions =
      (db.map (fun r => r.session_id)).toFinset.card := by
  have hsub : (getSessions db pq lq).data.Sublist
      (List.insertionSort (descBy (fun s => s.last_activity))
        ((firstDistinct (db.map (fun r => r.session_id))).map
          (sessionSummary db))) :=
    (List.take_sublist _ _).trans (List.drop_sublist _ _)
  refine ⟨?_, ?_, ?_, ?_, ?_, ?_⟩
  · intro sid r rest h
    constructor
    · show ((db.filter (fun x => x.session_id == sid)).head?.map
        (fun x => x.session_start)).getD 0 = r.session_start
      rw [h]
      rfl
    · show ((db.filter (fun x => x.session_id == sid)).head?.map
        (fun x => x.fingerprint)).getD none = r.fingerprint
      rw [h]
      rfl
  · intro sid
    exact ⟨fun r hr => le_foldr_max _ r hr, fun hne => foldr_max_mem _ hne,
      rfl, rfl, rfl, rfl, rfl, rfl⟩
  · intro s hs
    have h1 := hsub.subset hs
    have h2 := (List.perm_insertionSort _ _).mem_iff.mp h1
    rcases List.mem_map.mp h2 with ⟨sid, hsid, heq⟩
    exact ⟨sid, (mem_firstDistinct _ sid).mp hsid, heq.symm⟩
  · exact List.Pairwise.sublist hsub (List.sorted_insertionSort _ _)
  · exact List.length_take_le _ _
  · show (firstDistinct (db.map (fun r => r.session_id))).length =
      (db.map (fun r => r.session_id)).toFinset.card
    exact length_firstDistinct _

/-- C8 witness: the aggregation contract applied to two s1 records with
1 and 2 page views — the first-seen fields come from the earlier record
and `page_views_count` is 3. -/
theorem getSessions_spec_witness :
    ((sessionSummary dbS "s1").session_start =
        (sRec "s1" 10 1 0).session_start ∧
      (sessionSummary dbS "s1").fingerprint =
        (sRec "s1" 10 1 0).fingerprint) ∧
    (sessionSummary dbS "s1").page_views_count = 3 ∧
    (getSessions dbS none none).pagination.totalSessions =
      (dbS.map (fun r => r.session_id)).toFinset.card := by
  have h := getSessions_spec dbS none none
  refine ⟨h.1 "s1" (sRec "s1" 10 1 0) [sRec "s1" 20 2 0] (by decide),
    ?_, h.2.2.2.2.2⟩
  have h2 := (h.2.1 "s1").2.2.1
  rw [h2]
  decide

/-- C9 (amended): `GET /stats` reports the total record count, the
distinct session count and the trailing-24-hour record count exactly,
and sums the event-type counts over the FIRST up-to-1000 records of the
24-hour window in storage order (the query has no sort stage, so the
sample is not necessarily the most recent records); with an empty store
every reported number is 0 and no error occurs. -/
theorem getStats_spec (db : List BehaviorRecord) (now : Nat) :
    (getStats db now).total_records = db.length ∧
    (getStats db now).total_sessions =
      (db.map (fun r => r.session_id)).toFinset.card ∧
    (getStats db now).last_24_hours =
      (db.filter (fun r => now - DAY_MS ≤ r.collected_at)).length ∧
    (getStats db now).event_statistics.total_mouse_events =
      (((db.filter (fun r => now - DAY_MS ≤ r.collected_at)).take 1000).map
        (fun r => r.mouse_events.length)).sum ∧
    (getStats db now).event_statistics.total_click_events =
      (((db.filter (fun r => now - DAY_MS ≤ r.collected_at)).take 1000).map
        (fun r => r.click_events.length)).sum ∧
    (getStats db now).event_statistics.total_scroll_events =
      (((db.filter (fun r => now - DAY_MS ≤ r.collected_at)).take 1000).map
        (fun r => r.scroll_events.length)).sum ∧
    (getStats db now).event_statistics.total_key_events =
      (((db.filter (fun r => now - DAY_MS ≤ r.collected_at)).take 1000).map
        (fun r => r.key_events.length)).sum ∧
    (getStats db now).event_statistics.total_page_views =
      (((db.filter (fun r => now - DAY_MS ≤ r.collected_at)).take 1000).map
        (fun r => r.page_views.length)).sum ∧
    ((getStats [] now).total_records = 0 ∧
      (getStats [] now).total_sessions = 0 ∧
      (getStats [] now).last_24_hours = 0 ∧
      (getStats [] now).event_statistics.total_mouse_events = 0 ∧
      (getStats [] now).event_statistics.total_click_events = 0 ∧
      (getStats [] now).event_statistics.total_scroll_events = 0 ∧
      (getStats [] now).event_statistics.total_key_events = 0 ∧
      (getStats [] now).event_statistics.total_page_views = 0) := by
  refine ⟨rfl, ?_, rfl, rfl, rfl, rfl, rfl, rfl, ?_⟩
  · show (firstDistinct (db.map (fun r => r.session_id))).length =
      (db.map (fun r => r.session_id)).toFinset.card
    exact length_firstDistinct _
  · refine ⟨rfl, ?_, rfl, rfl, rfl, rfl, rfl, rfl⟩
    show (firstDistinct (([] : List BehaviorRecord).map
      (fun r => r.session_id))).length = 0
    simp [firstDistinct]

/-- Inserting a copy of the head value into a constant run extends the
run by one. -/
theorem orderedInsert_replicate_self (f : α → Nat) (a : α) (n : Nat) :
    List.orderedInsert (descBy f) a (List.replicate n a) =
      List.replicate (n + 1) a := by
  cases n with
  | zero => rfl
  | succ m =>
    rw [List.replicate_succ, List.orderedInsert,
      if_pos (show descBy f a a from Nat.le_refl (f a))]
    simp [List.replicate_succ]

/-- Insertion sort fixes a constant run. -/
theorem insertionSort_replicate (f : α → Nat) (a : α) (n : Nat) :
    List.insertionSort (descBy f) (List.replicate n a) =
      List.replicate n a := by
  induction n with
  | zero => rfl
  | succ m ih =>
    rw [List.replicate_succ, List.insertionSort, ih,
      orderedInsert_replicate_self]
    simp [List.replicate_succ]

/-- Inserting an element that sorts after a constant run appends it. -/
theorem orderedInsert_replicate_after (f : α → Nat) (a x : α) (n : Nat)
    (h : ¬ descBy f x a) :
    List.orderedInsert (descBy f) x (List.replicate n a) =
      List.replicate n a ++ [x] := by
  induction n with
  | zero => rfl
  | succ m ih =>
    rw [List.replicate_succ, List.orderedInsert, if_neg h, ih]
    simp [List.replicate_succ]

/-- C9 counterexample: with an early one-mouse-event record followed by
1000 empty records, all within the 24-hour window, `getStats` sums over
the first 1000 records in storage order (total 1), not over the 1000
most recent records (total 0), so the "most recent" reading of the
sample is false. -/
theorem stats_sample_not_most_recent :
    (getStats db9 DAY_MS).event_statistics.total_mouse_events ≠
      ((specMostRecentSample db9 DAY_MS).map
        (fun r => r.mouse_events.length)).sum := by
  have hfilter : db9.filter
      (fun r => DAY_MS - DAY_MS ≤ r.collected_at) = db9 :=
    List.filter_eq_self.mpr (fun a _ => by simp)
  have hlhs : (getStats db9 DAY_MS).event_statistics.total_mouse_events =
      (((db9.filter (fun r => DAY_MS - DAY_MS ≤ r.collected_at)).take
        1000).map (fun r => r.mouse_events.length)).sum := rfl
  have htake : db9.take 1000 = rOld :: List.replicate 999 rZero := by
    show ([rOld] ++ List.replicate 1000 rZero).take 1000 = _
    rw [List.take_append_eq_append_take,
      List.take_of_length_le (l := [rOld]) (by norm_num),
      List.take_replicate]
    norm_num
  have hsort : List.insertionSort
      (descBy (fun r : BehaviorRecord => r.collected_at)) db9 =
      List.replicate 1000 rZero ++ [rOld] := by
    show List.insertionSort _ (rOld :: List.replicate 1000 rZero) = _
    rw [List.insertionSort,
      insertionSort_replicate (fun r : BehaviorRecord => r.collected_at),
      orderedInsert_replicate_after
        (fun r : BehaviorRecord => r.collected_at) rZero rOld 1000
        (by simp [descBy, rZero, rOld, sRec])]
  have hrhs : ((specMostRecentSample db9 DAY_MS).map
      (fun r => r.mouse_events.length)).sum =
      (((List.insertionSort
        (descBy (fun r : BehaviorRecord => r.collected_at))
        (db9.filter (fun r => DAY_MS - DAY_MS ≤ r.collected_at))).take
          1000).map (fun r => r.mouse_events.length)).sum := rfl
  rw [hlhs, hfilter, htake, hrhs, hfilter, hsort]
  have htake2 : (List.replicate 1000 rZero ++ [rOld]).take 1000 =
      List.replicate 1000 rZero := by
    rw [List.take_left' (by norm_num)]
  rw [htake2]
  have hm1 : rOld.mouse_events.length = 1 := rfl
  have hm0 : rZero.mouse_events.length = 0 := rfl
  simp only [List.map_cons, List.map_replicate, hm0, hm1, List.sum_cons,
    List.sum_replicate, smul_zero]
  omega
